import Mathlib

/-!
Shallow embedding of `src/gpiolcd.c`: the HD44780 LCD driver hung off GPIO
pins.  Machine integers of the C source (`int`) are modelled as `Int`;
`uint8_t` values as `Nat` with explicit `% 256` at every point where the C
performs an integer→`uint8_t` conversion.  Stateful driver functions become
pure functions from the driver state to (new state, list of emitted
controller writes).  Timing (`usleep`) has no observable effect on the
properties under study and is not modelled.
-/

namespace Gpiolcd

/-- `enum reg_type` of the source: a controller write is either an
instruction (RS low) or a data byte (RS high). -/
inductive RegType where
  | command
  | data
deriving DecidableEq, Repr

/-- One controller write as observed at the byte level: register type and
the byte value (always reduced `% 256`, as the C `uint8_t` parameter of
`hd44780_output` does). -/
abbrev Wr := RegType × Nat

/-- `struct hd44780_state`, restricted to the fields the driver logic
reads and writes (`hd_fd` and the `pins[]` array are transport-level and
modelled separately).  The C fields are `int`; flags are 0/1 ints used
as booleans. -/
structure HDState where
  hd_ifwidth : Int
  hd_lines : Int
  hd_cols : Int
  hd_blink : Bool
  hd_cursor : Bool
  hd_font : Bool
  hd_col : Int
  hd_row : Int
deriving DecidableEq, Repr

/- Command codes (`#define CMD_*` in the source). -/
def CMD_RESET : Int := 0
def CMD_BKSP : Int := 1
def CMD_CLR : Int := 2
def CMD_NL : Int := 3
def CMD_CR : Int := 4
def CMD_HOME : Int := 5
def CMD_TAB : Int := 6
def CMD_FLASH : Int := 7

/- HD44780 instruction bytes (`#define HD_*` in the source). -/
def HD_CMD_CLEAR : Nat := 0x01
def HD_CMD_HOME : Nat := 0x02
def HD_CMD_ENTRYMODE : Nat := 0x04
def HD_ENTRY_INCR : Nat := 0x02
def HD_CMD_DISPCTRL : Nat := 0x08
def HD_DISP_ON : Nat := 0x04
def HD_CURSOR_ON : Nat := 0x02
def HD_BLINK_ON : Nat := 0x01
def HD_CMD_MOVE : Nat := 0x10
def HD_MOVE_CURSOR : Nat := 0x00
def HD_MOVE_LEFT : Nat := 0x00
def HD_CMD_SETMODE : Nat := 0x20
def HD_MODE_8BIT_IF : Nat := 0x10
def HD_MODE_2LINES : Nat := 0x08
def HD_MODE_LARGE_FONT : Nat := 0x04
def HD_CMD_SET_ADDR : Nat := 0x80

/-- `hd44780_calc_addr`: DDRAM address for the current cursor position.
The C computes into a `uint8_t`, so every step is reduced mod 256 (`%` on
`Int` is the euclidean remainder, matching C's value-preserving conversion
to an unsigned type). -/
def hd44780_calc_addr (s : HDState) : Nat :=
  let addr : Nat := (s.hd_col % 256).toNat
  let addr : Nat :=
    if s.hd_row = 1 ∨ s.hd_row = 3 then (addr + 0x40) % 256 else addr
  let addr : Nat :=
    if s.hd_row = 2 ∨ s.hd_row = 3 then (((addr : Int) + s.hd_cols) % 256).toNat
    else addr
  addr

/-- The display-control byte with the display on and the cursor/blink bits
taken from the configuration, as built in the `CMD_RESET` and `CMD_FLASH`
cases of `hd44780_command`. -/
def dispctrlOn (s : HDState) : Nat :=
  (HD_CMD_DISPCTRL ||| HD_DISP_ON)
    ||| (if s.hd_cursor then HD_CURSOR_ON else 0)
    ||| (if s.hd_blink then HD_BLINK_ON else 0)

/-- The write sequence of the `CMD_FLASH` case of `hd44780_command`: the
`for (i = 0; i < 2; i++)` loop emits display-off then display-on, twice
(unrolled here; each iteration's two writes are identical). -/
def flashWrites (s : HDState) : List Wr :=
  [(RegType.command, HD_CMD_DISPCTRL), (RegType.command, dispctrlOn s),
   (RegType.command, HD_CMD_DISPCTRL), (RegType.command, dispctrlOn s)]

/-- The function-set byte built at the top of the `CMD_RESET` case. -/
def setmodeVal (s : HDState) : Nat :=
  HD_CMD_SETMODE
    ||| (if s.hd_ifwidth = 8 then HD_MODE_8BIT_IF else 0)
    ||| (if s.hd_lines ≠ 1 then HD_MODE_2LINES else 0)
    ||| (if s.hd_font then HD_MODE_LARGE_FONT else 0)

/-- The write sequence of the `CMD_RESET` case before it falls through into
`CMD_CLR`: function-set three times, display-control off, display-control
per config, entry-mode auto-increment. -/
def resetWrites (s : HDState) : List Wr :=
  [(RegType.command, setmodeVal s), (RegType.command, setmodeVal s),
   (RegType.command, setmodeVal s),
   (RegType.command, HD_CMD_DISPCTRL), (RegType.command, dispctrlOn s),
   (RegType.command, HD_CMD_ENTRYMODE ||| HD_ENTRY_INCR)]

/-- Result of one `hd44780_command` call: the new driver state, the
controller writes it emitted (in order), and whether it hit the `default`
branch that prints an unknown-command warning via `warnx` (which does not
terminate the process — the function returns normally in every case). -/
structure CmdResult where
  state : HDState
  writes : List Wr
  warned : Bool
deriving DecidableEq, Repr

/-- The cursor update at the top of the `CMD_NL` case: move to the start
of the next row if one exists, otherwise park the column at the very end
(`hd_cols`) so that no further characters are output until the cursor is
repositioned. -/
def newlineState (s : HDState) : HDState :=
  if s.hd_row < s.hd_lines - 1 then
    { s with hd_row := s.hd_row + 1, hd_col := 0 }
  else
    { s with hd_col := s.hd_cols }

/-- `hd44780_command`: the switch over the command vocabulary.  C `%` on
`int` is truncating division remainder, `Int.tmod`.  The `CMD_RESET` case
falls through into `CMD_CLR`; in the `CMD_BKSP` case at column 0 the C
recursively calls `hd44780_command(state, CMD_FLASH)`, whose case leaves
the state unchanged and emits `flashWrites` — the recursive call is
inlined as exactly that. -/
def hd44780_command (s : HDState) (cmd : Int) : CmdResult :=
  if cmd = CMD_RESET then
    { state := { s with hd_col := 0, hd_row := 0 },
      writes := resetWrites s ++ [(RegType.command, HD_CMD_CLEAR)],
      warned := false }
  else if cmd = CMD_CLR then
    { state := { s with hd_col := 0, hd_row := 0 },
      writes := [(RegType.command, HD_CMD_CLEAR)],
      warned := false }
  else if cmd = CMD_BKSP then
    if s.hd_col > 0 then
      { state := { s with hd_col := s.hd_col - 1 },
        writes := [(RegType.command, HD_CMD_MOVE ||| HD_MOVE_CURSOR ||| HD_MOVE_LEFT)],
        warned := false }
    else
      { state := s, writes := flashWrites s, warned := false }
  else if cmd = CMD_NL then
    let s' := newlineState s
    { state := s',
      writes := [(RegType.command, (HD_CMD_SET_ADDR ||| hd44780_calc_addr s') % 256)],
      warned := false }
  else if cmd = CMD_CR then
    let s' := { s with hd_col := 0 }
    { state := s',
      writes := [(RegType.command, (HD_CMD_SET_ADDR ||| hd44780_calc_addr s') % 256)],
      warned := false }
  else if cmd = CMD_HOME then
    { state := { s with hd_col := 0, hd_row := 0 },
      writes := [(RegType.command, HD_CMD_HOME)],
      warned := false }
  else if cmd = CMD_TAB then
    let i := 8 - s.hd_col.tmod 8
    let i := if s.hd_col + i > s.hd_cols then s.hd_cols - s.hd_col else i
    { state := s,
      writes := List.replicate i.toNat (RegType.data, 0x20),
      warned := false }
  else if cmd = CMD_FLASH then
    { state := s, writes := flashWrites s, warned := false }
  else
    { state := s, writes := [], warned := true }

/-- `hd44780_putc`: write one character as a data byte and advance the
column, unless the column already equals the column count. -/
def hd44780_putc (s : HDState) (c : Nat) : HDState × List Wr :=
  if s.hd_col = s.hd_cols then (s, [])
  else ({ s with hd_col := s.hd_col + 1 }, [(RegType.data, c % 256)])

/-! ### Pin-level transport (`hd44780_output`, `hd44780_strobe`)

One byte write is expanded into operations on named pin roles (`enum
hd_pin_id`).  `GPIOSET` treats a nonzero `gp_value` as driving the line
high, so a level is a `Bool`. -/

/-- The pin roles of `enum hd_pin_id` that the 4-bit transfer drives.
`dat i` is `HD_PIN_DAT0 + i` for `i < 4`. -/
inductive HDPin where
  | dat (i : Nat)
  | rs
  | rw
  | e
  | bl
deriving DecidableEq, Repr

/-- One transport operation: drive a pin role to a level. -/
inductive PinOp where
  | set (p : HDPin) (level : Bool)
deriving DecidableEq, Repr

/-- `hd44780_strobe`: raise E, (hold 40µs,) lower E. -/
def strobeOps : List PinOp := [PinOp.set HDPin.e true, PinOp.set HDPin.e false]

/-- `hd44780_output` at the pin level: R/W low, RS per register type, the
four data lines to the upper nibble (`gp_value = (1 << (i + 4)) & data`,
nonzero meaning high), strobe, the four data lines to the lower nibble
(`gp_value = (1 << i) & data`), strobe. -/
def hd44780_output_ops (t : RegType) (data : Nat) : List PinOp :=
  [PinOp.set HDPin.rw false, PinOp.set HDPin.rs (t = RegType.data)]
    ++ ((List.range 4).map fun i =>
          PinOp.set (HDPin.dat i) ((1 <<< (i + 4)) &&& data ≠ 0))
    ++ strobeOps
    ++ ((List.range 4).map fun i =>
          PinOp.set (HDPin.dat i) ((1 <<< i) &&& data ≠ 0))
    ++ strobeOps

/-! ### Resource lifecycle of the transport handle (`main`,
`hd44780_prepare`, `hd44780_finish`)

`main` validates the configuration, calls `hd44780_prepare` (which opens
the device with `open(2)` and configures each bound pin), and only after
`prepare` returns registers `atexit(hd44780_finish)`, which closes the
descriptor.  Inside `prepare`, a failing `open` exits before any handle
exists; a failing `GPIOSETCONFIG` or initial `GPIOSET` on a bound pin
exits via `err(3)` — at that moment no atexit handler is registered.  The
model records the open/close events of a run, parametrised by which
external calls succeed. -/

/-- Resource events of a process run. -/
inductive ResEv where
  | openedDev
  | closedDev
deriving DecidableEq, Repr

/-- The `pins[]` array as `main` initialises it by default (indices
`HD_PIN_DAT0..HD_PIN_BL`): DAT0..DAT3 bound to lines 4..7 (DAT4..DAT7
stay -1 for the 4-bit interface), RS to 0, R/W unbound, E to 2, backlight
unbound. -/
def defaultPins : List Int := [4, 5, 6, 7, -1, -1, -1, -1, 0, -1, 2, -1]

/-- The pin loop of `hd44780_prepare`: skip unbound pins (-1); for a bound
pin, a failing `GPIOSETCONFIG` (`cfgOk`) or a failing initial `GPIOSET`
(`setOk`) calls `err(3)` and the process exits.  Returns `false` when the
loop exits the process early. -/
def preparePinsOk (cfgOk setOk : Int → Bool) : List Int → Bool
  | [] => true
  | p :: rest =>
      if p = -1 then preparePinsOk cfgOk setOk rest
      else if ¬ cfgOk p then false
      else if ¬ setOk p then false
      else preparePinsOk cfgOk setOk rest

/-- The resource-event trace of a whole process run after configuration
validation: `open` failing exits with no handle; a pin failure inside
`hd44780_prepare` exits after the open but before `atexit(hd44780_finish)`
is registered; otherwise `main` registers the handler, processes its
input, and `exit(EX_OK)` runs `hd44780_finish` exactly once. -/
def mainResTrace (openOk : Bool) (cfgOk setOk : Int → Bool) (pins : List Int) :
    List ResEv :=
  if ¬ openOk then []
  else if ¬ preparePinsOk cfgOk setOk pins then [ResEv.openedDev]
  else [ResEv.openedDev, ResEv.closedDev]

/-! ### Helper lemmas -/

/-- `hd44780_calc_addr` always fits in a byte. -/
theorem hd44780_calc_addr_lt (s : HDState) : hd44780_calc_addr s < 256 := by
  simp only [hd44780_calc_addr]
  split <;> split <;> omega

/-- `hd44780_command` never changes the display geometry. -/
theorem hd44780_command_geometry (s : HDState) (cmd : Int) :
    (hd44780_command s cmd).state.hd_lines = s.hd_lines ∧
    (hd44780_command s cmd).state.hd_cols = s.hd_cols := by
  simp only [hd44780_command, newlineState]
  split_ifs <;> simp

/-- Setting bit 7 over a byte keeps the value a byte. -/
theorem or128_lt (n : Nat) (h : n < 256) : 0x80 ||| n < 256 := by
  have hb : Nat.bitwise or 0x80 n < 2 ^ 8 :=
    @Nat.bitwise_lt or 0x80 n 8 (by norm_num) (by omega)
  simpa using hb

/-! ### Claim theorems -/

/-- C1: for every state with a validated geometry (`line_count ∈ {1,2,4}`,
`column_count > 0`, `line_count * column_count ≤ 80`) and a cursor column
in the documented range `0..column_count`, `calc_addr` returns the column
for row 0, column + 0x40 for row 1, column + column_count for row 2, and
column + 0x40 + column_count for row 3. -/
theorem calc_addr_rows (s : HDState)
    (hlines : s.hd_lines = 1 ∨ s.hd_lines = 2 ∨ s.hd_lines = 4)
    (hcols : 0 < s.hd_cols)
    (hcap : s.hd_lines * s.hd_cols ≤ 80)
    (hcol0 : 0 ≤ s.hd_col) (hcol : s.hd_col ≤ s.hd_cols) :
    (s.hd_row = 0 → (hd44780_calc_addr s : Int) = s.hd_col) ∧
    (s.hd_row = 1 → (hd44780_calc_addr s : Int) = s.hd_col + 0x40) ∧
    (s.hd_row = 2 → (hd44780_calc_addr s : Int) = s.hd_col + s.hd_cols) ∧
    (s.hd_row = 3 → (hd44780_calc_addr s : Int) = s.hd_col + 0x40 + s.hd_cols) := by
  have hc80 : s.hd_cols ≤ 80 := by
    rcases hlines with h | h | h <;> rw [h] at hcap <;> omega
  refine ⟨fun hr => ?_, fun hr => ?_, fun hr => ?_, fun hr => ?_⟩ <;>
    simp [hd44780_calc_addr, hr] <;> omega

/-- C1 witness: a 2×16 display with the cursor at column 5 of row 1 gets
DDRAM address 5 + 0x40. -/
theorem calc_addr_rows_witness :
    (hd44780_calc_addr ⟨4, 2, 16, false, false, false, 5, 1⟩ : Int) = 5 + 0x40 :=
  (calc_addr_rows ⟨4, 2, 16, false, false, false, 5, 1⟩ (by decide) (by decide)
    (by decide) (by decide) (by decide)).2.1 rfl

/-- C6: CLEAR and HOME both reset the cursor to (0,0) from any prior
state, and each is idempotent on CursorState (the second application
leaves the whole driver state of the first fixed). -/
theorem clear_home_reset_cursor (s : HDState) :
    (hd44780_command s CMD_CLR).state.hd_col = 0 ∧
    (hd44780_command s CMD_CLR).state.hd_row = 0 ∧
    (hd44780_command s CMD_HOME).state.hd_col = 0 ∧
    (hd44780_command s CMD_HOME).state.hd_row = 0 ∧
    (hd44780_command (hd44780_command s CMD_CLR).state CMD_CLR).state =
      (hd44780_command s CMD_CLR).state ∧
    (hd44780_command (hd44780_command s CMD_HOME).state CMD_HOME).state =
      (hd44780_command s CMD_HOME).state := by
  simp [hd44780_command, CMD_CLR, CMD_RESET, CMD_HOME, CMD_BKSP, CMD_NL, CMD_CR]

/-- C8: any command code outside the vocabulary `{CMD_RESET, CMD_BKSP,
CMD_CLR, CMD_NL, CMD_CR, CMD_HOME, CMD_TAB, CMD_FLASH}` reaches the
`default` branch: a warning is reported (`warnx`, which returns — the
function completes normally), no controller write is emitted, and the
driver state is unchanged. -/
theorem unknown_command_ignored (s : HDState) (cmd : Int)
    (h : cmd ∉ [CMD_RESET, CMD_BKSP, CMD_CLR, CMD_NL, CMD_CR, CMD_HOME,
                CMD_TAB, CMD_FLASH]) :
    hd44780_command s cmd = ⟨s, [], true⟩ := by
  simp only [List.mem_cons, List.not_mem_nil, or_false, not_or] at h
  obtain ⟨h0, h1, h2, h3, h4, h5, h6, h7⟩ := h
  simp [hd44780_command, h0, h1, h2, h3, h4, h5, h6, h7]

/-- C8 witness: command code 100 (ASCII 'd') is outside the vocabulary and
is ignored with a warning. -/
theorem unknown_command_ignored_witness :
    hd44780_command ⟨4, 2, 20, false, false, false, 3, 1⟩ 100 =
      ⟨⟨4, 2, 20, false, false, false, 3, 1⟩, [], true⟩ :=
  unknown_command_ignored ⟨4, 2, 20, false, false, false, 3, 1⟩ 100 (by decide)

/-- C2: NEWLINE moves the cursor to the start of the next row when one is
available, and otherwise parks the column at `column_count` with the row
unchanged; in both cases it emits exactly one set-DDRAM-address write of
`0x80 ||| calc_addr` at the new cursor position.  The last conjunct is the
spec's 2×16 scenario at row 1: the emitted byte is `0x80 ||| 0x40 ||| 16`. -/
theorem newline_cmd (s : HDState) :
    ((s.hd_row < s.hd_lines - 1 →
        (hd44780_command s CMD_NL).state.hd_row = s.hd_row + 1 ∧
        (hd44780_command s CMD_NL).state.hd_col = 0) ∧
     (¬ s.hd_row < s.hd_lines - 1 →
        (hd44780_command s CMD_NL).state.hd_row = s.hd_row ∧
        (hd44780_command s CMD_NL).state.hd_col = s.hd_cols)) ∧
    (hd44780_command s CMD_NL).writes =
      [(RegType.command,
         HD_CMD_SET_ADDR ||| hd44780_calc_addr (hd44780_command s CMD_NL).state)] ∧
    (hd44780_command ⟨4, 2, 16, false, false, false, 0, 1⟩ CMD_NL).writes =
      [(RegType.command, 0x80 ||| 0x40 ||| 16)] := by
  refine ⟨⟨fun h => ?_, fun h => ?_⟩, ?_, by decide⟩
  · simp [hd44780_command, CMD_NL, CMD_RESET, CMD_CLR, CMD_BKSP,
      newlineState, if_pos h]
  · simp [hd44780_command, CMD_NL, CMD_RESET, CMD_CLR, CMD_BKSP,
      newlineState, if_neg h]
  · have hred : (hd44780_command s CMD_NL).state = newlineState s := by
      simp [hd44780_command, CMD_NL, CMD_RESET, CMD_CLR, CMD_BKSP]
    rw [hred]
    simp [hd44780_command, CMD_NL, CMD_RESET, CMD_CLR, CMD_BKSP,
      Nat.mod_eq_of_lt]
    exact or128_lt _ (hd44780_calc_addr_lt _)

/-- C2 witness: on a 2×16 display at (row 0, column 0), NEWLINE moves the
cursor to row 1, column 0. -/
theorem newline_cmd_witness :
    (hd44780_command ⟨4, 2, 16, false, false, false, 0, 0⟩ CMD_NL).state.hd_row = 1 ∧
    (hd44780_command ⟨4, 2, 16, false, false, false, 0, 0⟩ CMD_NL).state.hd_col = 0 :=
  (newline_cmd ⟨4, 2, 16, false, false, false, 0, 0⟩).1.1 (by decide)

/-- C4: `hd44780_putc` with the column strictly left of `column_count`
emits exactly one data-byte write of the character and advances the column
by one; with the column at `column_count` it emits nothing and leaves the
state (row and column included) unchanged. -/
theorem putc_edge (s : HDState) (c : Nat) (hc : c < 256) :
    (s.hd_col < s.hd_cols →
      hd44780_putc s c =
        ({ s with hd_col := s.hd_col + 1 }, [(RegType.data, c)])) ∧
    (s.hd_col = s.hd_cols → hd44780_putc s c = (s, [])) := by
  constructor
  · intro h
    rw [hd44780_putc, if_neg (by omega), Nat.mod_eq_of_lt hc]
  · intro h
    rw [hd44780_putc, if_pos h]

/-- C4 witness: on a 2×16 display, `putc 'A'` at column 3 writes the byte
and advances to column 4; at column 16 it is a no-op. -/
theorem putc_edge_witness :
    hd44780_putc ⟨4, 2, 16, false, false, false, 3, 0⟩ 65 =
      (⟨4, 2, 16, false, false, false, 4, 0⟩, [(RegType.data, 65)]) ∧
    hd44780_putc ⟨4, 2, 16, false, false, false, 16, 0⟩ 65 =
      (⟨4, 2, 16, false, false, false, 16, 0⟩, []) := by
  constructor
  · exact (putc_edge ⟨4, 2, 16, false, false, false, 3, 0⟩ 65 (by decide)).1
      (by decide)
  · exact (putc_edge ⟨4, 2, 16, false, false, false, 16, 0⟩ 65 (by decide)).2 rfl

/-- C5: BACKSPACE with a positive column emits exactly the cursor-left
move instruction and decrements the column (row untouched); at column 0 it
emits the FLASH write sequence, none of whose bytes is a cursor/display
move instruction (the `HD_CMD_MOVE` range `0x10..0x1f`), and leaves the
state unchanged. -/
theorem backspace_cases (s : HDState) :
    (0 < s.hd_col →
      hd44780_command s CMD_BKSP =
        ⟨{ s with hd_col := s.hd_col - 1 },
         [(RegType.command, HD_CMD_MOVE ||| HD_MOVE_CURSOR ||| HD_MOVE_LEFT)],
         false⟩) ∧
    (s.hd_col = 0 →
      hd44780_command s CMD_BKSP = ⟨s, flashWrites s, false⟩ ∧
      ∀ w ∈ flashWrites s, ¬ (HD_CMD_MOVE ≤ w.2 ∧ w.2 < HD_CMD_SETMODE)) := by
  constructor
  · intro h
    simp [hd44780_command, CMD_BKSP, CMD_RESET, CMD_CLR, h]
  · intro h
    constructor
    · simp [hd44780_command, CMD_BKSP, CMD_RESET, CMD_CLR, h]
    · cases hcur : s.hd_cursor <;> cases hbl : s.hd_blink <;>
        simp [flashWrites, dispctrlOn, hcur, hbl, HD_CMD_DISPCTRL, HD_DISP_ON,
          HD_CURSOR_ON, HD_BLINK_ON, HD_CMD_MOVE, HD_CMD_SETMODE]

/-- C3: evaluating the `CMD_TAB` case on the spec's own scenarios (a
2×20 display, columns 3 and 17).  The expected numbers of space data
bytes are written, but the driver's tracked column does not move: the
loop calls `hd44780_output` directly and never updates `state->hd_col`,
so the column stays 3 (resp. 17) where the claim expects 8 (resp. 20). -/
theorem tab_writes_but_column_stale :
    (hd44780_command ⟨4, 2, 20, false, false, false, 3, 0⟩ CMD_TAB).writes =
      List.replicate 5 (RegType.data, 0x20) ∧
    (hd44780_command ⟨4, 2, 20, false, false, false, 3, 0⟩ CMD_TAB).state =
      ⟨4, 2, 20, false, false, false, 3, 0⟩ ∧
    (hd44780_command ⟨4, 2, 20, false, false, false, 17, 0⟩ CMD_TAB).writes =
      List.replicate 3 (RegType.data, 0x20) ∧
    (hd44780_command ⟨4, 2, 20, false, false, false, 17, 0⟩ CMD_TAB).state =
      ⟨4, 2, 20, false, false, false, 17, 0⟩ := by
  decide

/-- C5 witness: BACKSPACE at column 3 emits the cursor-left instruction
and moves to column 2; BACKSPACE at column 0 emits the FLASH sequence and
changes nothing. -/
theorem backspace_cases_witness :
    hd44780_command ⟨4, 2, 16, false, false, false, 3, 1⟩ CMD_BKSP =
      ⟨⟨4, 2, 16, false, false, false, 2, 1⟩,
       [(RegType.command, 0x10)], false⟩ ∧
    hd44780_command ⟨4, 2, 16, false, false, false, 0, 1⟩ CMD_BKSP =
      ⟨⟨4, 2, 16, false, false, false, 0, 1⟩,
       flashWrites ⟨4, 2, 16, false, false, false, 0, 1⟩, false⟩ := by
  constructor
  · exact (backspace_cases ⟨4, 2, 16, false, false, false, 3, 1⟩).1 (by decide)
  · exact ((backspace_cases ⟨4, 2, 16, false, false, false, 0, 1⟩).2 rfl).1

/-- A single-bit mask test (`(1 << k) & d`, zero meaning the line is
driven low) reads exactly bit `k` of `d`. -/
theorem two_pow_and_eq_zero (k d : Nat) :
    decide (2 ^ k &&& d = 0) = !d.testBit k := by
  rw [Nat.two_pow_and]
  cases hb : d.testBit k
  · simp
  · have h2 := Nat.two_pow_pos k
    simp only [Bool.toNat_true, Nat.mul_one, Bool.not_true,
      decide_eq_false_iff_not]
    omega

/-- C7: every controller write drives R/W low, RS low for an instruction
and high for a data byte, then transfers the byte as two nibbles, upper
first: bit 4 of the byte on DAT0 up to bit 7 on DAT3, a strobe, then bit 0
on DAT0 up to bit 3 on DAT3, and a final strobe. -/
theorem output_two_nibbles (t : RegType) (d : Nat) :
    hd44780_output_ops t d =
      [PinOp.set HDPin.rw false, PinOp.set HDPin.rs (t = RegType.data),
       PinOp.set (HDPin.dat 0) (d.testBit 4), PinOp.set (HDPin.dat 1) (d.testBit 5),
       PinOp.set (HDPin.dat 2) (d.testBit 6), PinOp.set (HDPin.dat 3) (d.testBit 7)]
      ++ strobeOps ++
      [PinOp.set (HDPin.dat 0) (d.testBit 0), PinOp.set (HDPin.dat 1) (d.testBit 1),
       PinOp.set (HDPin.dat 2) (d.testBit 2), PinOp.set (HDPin.dat 3) (d.testBit 3)]
      ++ strobeOps := by
  simp [hd44780_output_ops, List.range_succ]
  refine ⟨two_pow_and_eq_zero 4 d, two_pow_and_eq_zero 5 d,
    two_pow_and_eq_zero 6 d, two_pow_and_eq_zero 7 d, ?_,
    two_pow_and_eq_zero 1 d, two_pow_and_eq_zero 2 d, two_pow_and_eq_zero 3 d⟩
  rcases Nat.mod_two_eq_zero_or_one d with h | h <;> simp [h]

/-- C9 counterexample: a run in which the GPIO device opens successfully
but the very first pin configuration fails.  `err(3)` exits inside
`hd44780_prepare`, before `main` reaches `atexit(hd44780_finish)`, so the
opened transport handle is never released by the program — the claim's
"released exactly once on every exit path after a successful open" fails
on this path. -/
theorem open_without_release_on_cfg_failure :
    (mainResTrace true (fun _ => false) (fun _ => true) defaultPins).count
        ResEv.openedDev = 1 ∧
    (mainResTrace true (fun _ => false) (fun _ => true) defaultPins).count
        ResEv.closedDev = 0 := by
  decide

/-- C9 (amended): when the open succeeds and every bound pin configures
successfully, the handle is released exactly once (by the `atexit`
handler on `exit(EX_OK)`); when the open succeeds but a pin fails, the
program performs no release at all; when the open fails, no handle ever
exists. -/
theorem transport_release_amended (openOk : Bool) (cfgOk setOk : Int → Bool)
    (pins : List Int) :
    (openOk = true → preparePinsOk cfgOk setOk pins = true →
       (mainResTrace openOk cfgOk setOk pins).count ResEv.closedDev = 1 ∧
       (mainResTrace openOk cfgOk setOk pins).count ResEv.openedDev = 1) ∧
    (openOk = true → preparePinsOk cfgOk setOk pins = false →
       (mainResTrace openOk cfgOk setOk pins).count ResEv.closedDev = 0) ∧
    (openOk = false → mainResTrace openOk cfgOk setOk pins = []) := by
  refine ⟨fun ho hp => ?_, fun ho hp => ?_, fun ho => ?_⟩
  · rw [mainResTrace, if_neg (by simp [ho]), if_neg (by simp [hp])]
    decide
  · rw [mainResTrace, if_neg (by simp [ho]), if_pos (by simp [hp])]
    decide
  · rw [mainResTrace, if_pos (by simp [ho])]

/-- C9 witness: with the open and all pin operations succeeding on the
default pin bindings, the transport handle is released exactly once. -/
theorem transport_release_amended_witness :
    (mainResTrace true (fun _ => true) (fun _ => true) defaultPins).count
        ResEv.closedDev = 1 :=
  ((transport_release_amended true (fun _ => true) (fun _ => true)
      defaultPins).1 rfl (by decide)).1

/-- The configuration constraints `main` enforces before the driver runs
(lines 222–229 of the source): 1, 2 or 4 lines, a positive column count,
and at most 80 characters of DDRAM. -/
def validConfig (s : HDState) : Prop :=
  (s.hd_lines = 1 ∨ s.hd_lines = 2 ∨ s.hd_lines = 4) ∧ 0 < s.hd_cols ∧
    s.hd_lines * s.hd_cols ≤ 80

/-- The cursor invariant: the row stays on the display and the column
stays in `0..column_count`, where `column_count` itself is the off-edge
sentinel. -/
def cursorInv (s : HDState) : Prop :=
  0 ≤ s.hd_row ∧ s.hd_row ≤ s.hd_lines - 1 ∧ 0 ≤ s.hd_col ∧ s.hd_col ≤ s.hd_cols

/-- C10: under a validated configuration, every command (the eight
recognized codes and any unknown code alike) and `hd44780_putc` preserve
the cursor invariant: the row never leaves `0..line_count-1` and the
column never exceeds the `column_count` sentinel. -/
theorem cursor_invariant_preserved (s : HDState) (cmd : Int) (c : Nat)
    (hv : validConfig s) (hi : cursorInv s) :
    cursorInv (hd44780_command s cmd).state ∧ cursorInv (hd44780_putc s c).1 := by
  obtain ⟨hl, hc, hcap⟩ := hv
  obtain ⟨h1, h2, h3, h4⟩ := hi
  have hl1 : 1 ≤ s.hd_lines := by rcases hl with h | h | h <;> omega
  constructor
  · simp only [hd44780_command, newlineState]
    split_ifs <;> simp [cursorInv] <;> omega
  · simp only [hd44780_putc]
    split_ifs <;> simp [cursorInv] <;> omega

/-- C10 witness: on a freshly reset 2×16 display, NEWLINE and a character
write both keep the cursor in range. -/
theorem cursor_invariant_preserved_witness :
    cursorInv (hd44780_command ⟨4, 2, 16, false, false, false, 0, 0⟩ CMD_NL).state ∧
    cursorInv (hd44780_putc ⟨4, 2, 16, false, false, false, 0, 0⟩ 65).1 :=
  cursor_invariant_preserved ⟨4, 2, 16, false, false, false, 0, 0⟩ CMD_NL 65
    ⟨by decide, by decide, by decide⟩ ⟨by decide, by decide, by decide, by decide⟩

end Gpiolcd
